import Mathlib

/-!
Shallow embedding of the real-time live-session component
(`src/components/LiveSession.tsx`) of the doubt-chatbot repository, together
with the shared-image slot of `src/context/AppContext.ts`.

Modelling conventions: the component's state hooks and mutable closure
variables become fields of explicit state records; each event handler becomes
a function from state to state (returning emitted outputs where the code
sends data or invokes the `onSessionEnd` callback).  Per the single-threaded
event-loop model, a state setter is an assignment and a functional update
(`setX(prev => ...)`) reads the current store; a plain state variable
mentioned inside a callback denotes the value captured when that callback's
closure was created, and where such a capture is stale (the `turnComplete`
commit of line 244) the captured snapshot appears as an explicit
parameter.  Time values (the
`AudioContext` clock and buffer durations) are modelled as rationals.
External effects that cannot influence the verified state (DOM drawing, the
actual network sends, `console` logging) are dropped; fallible external
acquisitions (`getUserMedia`, `getDisplayMedia`, the summarization request)
are modelled by an explicit success/failure parameter.
-/

/-- One committed or in-progress conversational turn: the pair of growable
transcript strings, mirroring the `{user: string, model: string}` objects of
`LiveSession.tsx`. -/
structure TurnBuffer where
  user : String
  model : String
deriving Repr, DecidableEq

/-- The initial / reset value `{user: '', model: ''}`. -/
def emptyTurn : TurnBuffer := ⟨"", ""⟩

/-- State of the playback scheduler that lives in the `startSession` closure:
`sources` (the `Set<AudioBufferSourceNode>`, modelled as a list of distinct
handle ids), `nextId` (a supply of fresh handle ids, standing in for object
identity of freshly created buffer-source nodes), and `nextStartTime` (the
`let nextStartTime = 0` closure variable). -/
structure SchedState where
  sources : List Nat
  nextId : Nat
  nextStartTime : ℚ
deriving Repr, DecidableEq

/-- The scheduler state installed by `startSession` (lines 219-221):
`nextStartTime = 0`, empty source set. -/
def initSched : SchedState := ⟨[], 0, 0⟩

/-- The `AudioChunk` branch of `onmessage` (lines 248-258): clamp the cursor
up to the current clock time, start the new source at the clamped cursor,
advance the cursor by the buffer's duration, and add the handle to the set.
Returns the new state together with the time at which the chunk was
scheduled to start (the argument of `source.start`). -/
def handleAudioChunk (dur clockNow : ℚ) (s : SchedState) : SchedState × ℚ :=
  let start := max s.nextStartTime clockNow
  ({ sources := s.sources ++ [s.nextId]
     nextId := s.nextId + 1
     nextStartTime := start + dur }, start)

/-- The `ended` listener of a source (line 255): `sources.delete(source)`. -/
def handleEnded (h : Nat) (s : SchedState) : SchedState :=
  { s with sources := s.sources.filter (fun x => x ≠ h) }

/-- The `interrupted` branch of `onmessage` (lines 260-266): stop and delete
every source, then assign the constant `0` to `nextStartTime`. -/
def handleInterrupted (s : SchedState) : SchedState :=
  { s with sources := [], nextStartTime := 0 }

/-- The scheduler's interruption operation, taking the clock time at which
the interruption is handled as a parameter so that clock-relative properties
can be stated; the code does not read the clock in this branch (it assigns
the constant `0` to the cursor, lines 260-266). -/
def interrupt (clockNow : ℚ) (s : SchedState) : SchedState :=
  handleInterrupted s

/-- Run a sequence of `AudioChunk` events, each a `(duration, clockNow)`
pair, collecting the scheduled start times in arrival order. -/
def runChunks (s : SchedState) : List (ℚ × ℚ) → SchedState × List ℚ
  | [] => (s, [])
  | c :: rest =>
    let p := handleAudioChunk c.1 c.2 s
    let q := runChunks p.1 rest
    (q.1, p.2 :: q.2)

/-- A session record as produced at teardown (`SessionSummary` in
`src/types.ts`): id (an ISO timestamp), title, content, date. -/
structure SessionSummary where
  id : String
  title : String
  content : String
  date : String
deriving Repr, DecidableEq

/-- The transcript serialisation of `generateAndSaveSummary` (lines 120 and
157): map each turn to a two-line block and join with blank lines. -/
def transcriptText (ts : List TurnBuffer) : String :=
  String.intercalate "\n\n"
    (ts.map (fun t => "User: " ++ t.user ++ "\nGemini: " ++ t.model))

/-- Outcome of the remote summarization call, an external collaborator:
either `generateContent` returned and the response was reduced (through the
JSON-parsing fallbacks of lines 133-142) to a title and a summary body, or
the awaited call threw. -/
inductive SummarizeOutcome where
  | success (title content : String)
  | failure
deriving Repr, DecidableEq

/-- `generateAndSaveSummary` (lines 114-162), with the ambient
`process.env.API_KEY` truthiness, the two `new Date()` strings and the
remote call's outcome as parameters.  Returns the record passed to
`onSessionEnd`, or `none` when the early return of line 115 fires (so the
callback is never invoked). -/
def generateAndSaveSummary (hasApiKey : Bool) (outcome : SummarizeOutcome)
    (nowId nowDate : String) (fullTranscription : List TurnBuffer) :
    Option SessionSummary :=
  if fullTranscription.length = 0 ∨ hasApiKey = false then none
  else
    match outcome with
    | .success title content => some ⟨nowId, title, content, nowDate⟩
    | .failure =>
      some ⟨nowId, "Session Log (Summary Failed)",
            transcriptText fullTranscription, nowDate⟩

/-- The whole component state of `LiveSession.tsx`: the `useState` flags and
transcript state, the refs holding live resources (each modelled by whether
the ref currently holds a resource), the status line, and the playback
scheduler state of the current session's closure.  The DOM video/canvas
elements and the annotation drawing state are outside the model. -/
structure LiveState where
  isSessionActive : Bool
  isMicOn : Bool
  isCameraOn : Bool
  isScreenOn : Bool
  isAnnotating : Bool
  transcription : List TurnBuffer
  currentSpokenText : TurnBuffer
  mediaStream : Bool
  frameInterval : Bool
  scriptProcessor : Bool
  audioContext : Bool
  channel : Bool
  status : String
  sched : SchedState
deriving Repr, DecidableEq

/-- The component's initial state (lines 14-33). -/
def initLive : LiveState :=
  { isSessionActive := false, isMicOn := false, isCameraOn := false
    isScreenOn := false, isAnnotating := false, transcription := []
    currentSpokenText := emptyTurn, mediaStream := false
    frameInterval := false, scriptProcessor := false, audioContext := false
    channel := false, status := "Idle. Press Start to connect."
    sched := initSched }

/-- `stopAllStreams` (lines 164-176): stop and drop the media stream, clear
the frame interval, detach the video element's source (the element itself is
outside the model). -/
def stopAllStreams (s : LiveState) : LiveState :=
  { s with mediaStream := false, frameInterval := false }

/-- The conditional flush inlined at line 204 together with the reset of
line 207, as the spec's `flushPending` operation: returns the current buffer
when either of its fields is a non-empty string (JavaScript truthiness of
`currentSpokenText.user || currentSpokenText.model`), `none` otherwise, and
the buffer left behind is always the empty buffer. -/
def flushPending (b : TurnBuffer) : Option TurnBuffer × TurnBuffer :=
  (if b.user ≠ "" ∨ b.model ≠ "" then some b else none, emptyTurn)

/-- `stopSession` (lines 178-209): clear every device flag, tear down the
streams, close and drop the channel, disconnect and drop the audio graph,
build the final transcript (committed turns plus any flushed partial turn),
hand it to `generateAndSaveSummary`, reset the transcript state, and set the
final status.  Returns the new state and the record passed to
`onSessionEnd` (if any). -/
def stopSession (hasApiKey : Bool) (outcome : SummarizeOutcome)
    (nowId nowDate : String) (s : LiveState) :
    LiveState × Option SessionSummary :=
  let s1 : LiveState :=
    { s with isSessionActive := false, isMicOn := false, isCameraOn := false
             isScreenOn := false, isAnnotating := false }
  let s2 := stopAllStreams s1
  let s3 : LiveState :=
    { s2 with channel := false, scriptProcessor := false
              audioContext := false }
  let finalTranscription :=
    s3.transcription ++ (flushPending s3.currentSpokenText).1.toList
  let record :=
    generateAndSaveSummary hasApiKey outcome nowId nowDate finalTranscription
  ({ s3 with transcription := [], currentSpokenText := emptyTurn
             status := "Session ended." }, record)

/-- The `onopen` callback of `startSession` (lines 232-235). -/
def onOpen (s : LiveState) : LiveState :=
  { s with isSessionActive := true
           status := "Connected! Enable mic to start talking." }

/-- The `outputTranscription` branch of `onmessage` (lines 237-239): append
the delta to the model side of the current buffer. -/
def onOutputTranscription (t : String) (s : LiveState) : LiveState :=
  { s with currentSpokenText :=
      { s.currentSpokenText with
          model := s.currentSpokenText.model ++ t } }

/-- The `inputTranscription` branch of `onmessage` (lines 240-242): append
the delta to the user side of the current buffer. -/
def onInputTranscription (t : String) (s : LiveState) : LiveState :=
  { s with currentSpokenText :=
      { s.currentSpokenText with
          user := s.currentSpokenText.user ++ t } }

/-- The `turnComplete` branch of `onmessage` (lines 243-246): append to the
committed transcript the `currentSpokenText` value captured by the
`onmessage` closure when `startSession` ran — the closure is created once,
in the render that handled the Start click, so line 244 reads that render's
constant, not the current store (a stale closure) — and reset the current
buffer (line 245 assigns the constant empty pair).  The captured snapshot
is passed as a parameter; in the states from which `startSession` is
reachable it is the empty turn. -/
def onTurnComplete (captured : TurnBuffer) (s : LiveState) : LiveState :=
  { s with transcription := s.transcription ++ [captured]
           currentSpokenText := emptyTurn }

/-- The audio branch of `onmessage` (lines 248-259) acting on the component
state: only the scheduler closure state changes. -/
def onAudioChunk (dur clockNow : ℚ) (s : LiveState) : LiveState :=
  { s with sched := (handleAudioChunk dur clockNow s.sched).1 }

/-- The `interrupted` branch of `onmessage` (lines 260-266) acting on the
component state: only the scheduler closure state changes. -/
def onInterrupted (s : LiveState) : LiveState :=
  { s with sched := handleInterrupted s.sched }

/-- Which visual source a media stream captures (`'camera' | 'screen'`). -/
inductive StreamType where
  | camera
  | screen
deriving Repr, DecidableEq

/-- `startMediaStream` (lines 320-364): first release whatever visual
pipeline is running (`stopAllStreams`, line 321), then acquire the new
device.  `ok` models whether `getUserMedia`/`getDisplayMedia` succeeded
(`false` takes the `catch` branch, which only records a status);
`hasVideoEl` models the `if (!canvas || !video) return` guard of line 338
(when `false`, the flag and stream are set but no frame interval starts). -/
def startMediaStream (t : StreamType) (ok hasVideoEl : Bool)
    (s : LiveState) : LiveState :=
  let s1 := stopAllStreams s
  if ok then
    let s2 : LiveState := { s1 with mediaStream := true }
    let s3 : LiveState :=
      match t with
      | .camera => { s2 with isCameraOn := true }
      | .screen => { s2 with isScreenOn := true }
    if hasVideoEl then { s3 with frameInterval := true } else s3
  else
    { s1 with status :=
        (match t with | .camera => "camera" | .screen => "screen")
        ++ " access denied or failed." }

/-- `toggleCamera` (lines 366-375). -/
def toggleCamera (ok hasVideoEl : Bool) (s : LiveState) : LiveState :=
  if s.isSessionActive = false then s
  else if s.isCameraOn then
    { stopAllStreams s with isCameraOn := false }
  else
    let s1 : LiveState :=
      if s.isScreenOn then { s with isScreenOn := false } else s
    startMediaStream .camera ok hasVideoEl s1

/-- `toggleScreenShare` (lines 377-386). -/
def toggleScreenShare (ok hasVideoEl : Bool) (s : LiveState) : LiveState :=
  if s.isSessionActive = false then s
  else if s.isScreenOn then
    { stopAllStreams s with isScreenOn := false }
  else
    let s1 : LiveState :=
      if s.isCameraOn then { s with isCameraOn := false } else s
    startMediaStream .screen ok hasVideoEl s1

/-- `toggleMicrophone` (lines 281-318); `ok` models whether `getUserMedia`
succeeded. -/
def toggleMicrophone (ok : Bool) (s : LiveState) : LiveState :=
  if s.isSessionActive = false then s
  else if s.isMicOn then
    { s with scriptProcessor := false, audioContext := false
             isMicOn := false, status := "Microphone off." }
  else if ok then
    { s with audioContext := true, scriptProcessor := true
             isMicOn := true, status := "Microphone on. Start speaking!" }
  else
    { s with status := "Microphone access denied." }

/-- One user command or inbound channel event of the component, with the
environment's nondeterminism (device-acquisition success, summarizer
outcome, wall-clock values) carried in the constructor. -/
inductive LiveOp where
  | opened
  | toggleCam (ok hasVideoEl : Bool)
  | toggleScr (ok hasVideoEl : Bool)
  | toggleMic (ok : Bool)
  | stop (hasApiKey : Bool) (outcome : SummarizeOutcome) (nowId nowDate : String)
  | inputDelta (t : String)
  | outputDelta (t : String)
  | turnComplete (captured : TurnBuffer)
  | audioChunk (dur clockNow : ℚ)
  | interrupted
  | ended (h : Nat)
deriving Repr, DecidableEq

/-- Apply one operation to the component state (discarding any emitted
session record). -/
def applyOp (s : LiveState) : LiveOp → LiveState
  | .opened => onOpen s
  | .toggleCam ok hv => toggleCamera ok hv s
  | .toggleScr ok hv => toggleScreenShare ok hv s
  | .toggleMic ok => toggleMicrophone ok s
  | .stop k o i d => (stopSession k o i d s).1
  | .inputDelta t => onInputTranscription t s
  | .outputDelta t => onOutputTranscription t s
  | .turnComplete captured => onTurnComplete captured s
  | .audioChunk dur clockNow => onAudioChunk dur clockNow s
  | .interrupted => onInterrupted s
  | .ended h => { s with sched := handleEnded h s.sched }

/-- A media chunk as handed over by the general-purpose chat
(`sharedImage` in `src/context/AppContext.ts`): base64 data and mime type. -/
structure MediaChunk where
  data : String
  mimeType : String
deriving Repr, DecidableEq

/-- The state the shared-image effect reads: the single-slot `sharedImage`
value of the app context, and whether `sessionPromiseRef.current` is
non-null. -/
structure ShareSlotState where
  sharedImage : Option MediaChunk
  sessionOpen : Bool
deriving Repr, DecidableEq

/-- The shared-image effect of `LiveSession.tsx` (lines 43-52): when a
shared image is present and a session promise exists, send it as one
realtime media chunk and clear the slot; otherwise do nothing.  Returns the
new state and the list of chunks sent to the channel. -/
def runSharedImageEffect (s : ShareSlotState) : ShareSlotState × List MediaChunk :=
  match s.sharedImage with
  | some img =>
    if s.sessionOpen then ({ s with sharedImage := none }, [img])
    else (s, [])
  | none => (s, [])

/-- A transcript-delta event, as dispatched by the two transcription
branches of `onmessage`. -/
inductive DeltaEv where
  | input (t : String)
  | output (t : String)
deriving Repr, DecidableEq

/-- Apply one transcript delta to the component state. -/
def applyDelta (s : LiveState) : DeltaEv → LiveState
  | .input t => onInputTranscription t s
  | .output t => onOutputTranscription t s

/-- Concatenation of the user-side deltas of a stream, in arrival order. -/
def userConcat : List DeltaEv → String
  | [] => ""
  | .input t :: rest => t ++ userConcat rest
  | .output _ :: rest => userConcat rest

/-- Concatenation of the model-side deltas of a stream, in arrival order. -/
def modelConcat : List DeltaEv → String
  | [] => ""
  | .input _ :: rest => modelConcat rest
  | .output t :: rest => t ++ modelConcat rest

/-! ## Claim theorems -/

/-- Completion callbacks never repopulate an emptied source set and never
move the cursor. -/
theorem foldl_handleEnded_of_sources_nil (ends : List Nat) :
    ∀ st : SchedState, st.sources = [] →
      (ends.foldl (fun st h => handleEnded h st) st).sources = [] ∧
      (ends.foldl (fun st h => handleEnded h st) st).nextStartTime =
        st.nextStartTime := by
  induction ends with
  | nil => exact fun st h => ⟨h, rfl⟩
  | cons e rest ih =>
    intro st h
    have h1 : (handleEnded e st).sources = [] := by
      simp [handleEnded, h]
    simpa [handleEnded] using ih (handleEnded e st) h1

/-- C1 (counterexample): the claim as stated is false — interrupting at
clock time 5 leaves the cursor at 0, not 5 (the code assigns the constant
`0` to `nextStartTime`, line 265). -/
theorem interrupt_cursor_counterexample :
    ¬ ((interrupt 5 ⟨[0, 1], 2, 7⟩).sources = [] ∧
       (interrupt 5 ⟨[0, 1], 2, 7⟩).nextStartTime = 5) := by
  decide

/-- C1 (amended): for every scheduler state, interrupting (at any clock
time) and then letting any number of previously-scheduled completion
callbacks fire leaves `ActiveSources` empty and the playback cursor equal
to 0. -/
theorem interrupt_then_completions_flushes (clockNow : ℚ) (s : SchedState)
    (ends : List Nat) :
    (ends.foldl (fun st h => handleEnded h st) (interrupt clockNow s)).sources
      = [] ∧
    (ends.foldl (fun st h => handleEnded h st)
      (interrupt clockNow s)).nextStartTime = 0 := by
  have h := foldl_handleEnded_of_sources_nil ends (interrupt clockNow s) rfl
  exact ⟨h.1, h.2⟩

/-- C10: handling an `Interrupted` inbound event modifies only the playback
scheduler state — the committed transcript, the current turn buffer, the
session-active flag, all device flags, every resource ref and the status
line are unchanged; within the scheduler, the source set is emptied and the
cursor reset to 0. -/
theorem interrupted_frame_effect (s : LiveState) :
    (onInterrupted s).transcription = s.transcription ∧
    (onInterrupted s).currentSpokenText = s.currentSpokenText ∧
    (onInterrupted s).isSessionActive = s.isSessionActive ∧
    (onInterrupted s).isMicOn = s.isMicOn ∧
    (onInterrupted s).isCameraOn = s.isCameraOn ∧
    (onInterrupted s).isScreenOn = s.isScreenOn ∧
    (onInterrupted s).isAnnotating = s.isAnnotating ∧
    (onInterrupted s).mediaStream = s.mediaStream ∧
    (onInterrupted s).frameInterval = s.frameInterval ∧
    (onInterrupted s).scriptProcessor = s.scriptProcessor ∧
    (onInterrupted s).audioContext = s.audioContext ∧
    (onInterrupted s).channel = s.channel ∧
    (onInterrupted s).status = s.status ∧
    (onInterrupted s).sched.sources = [] ∧
    (onInterrupted s).sched.nextStartTime = 0 := by
  exact ⟨rfl, rfl, rfl, rfl, rfl, rfl, rfl, rfl, rfl, rfl, rfl, rfl, rfl,
    rfl, rfl⟩

/-- C4: `flushPending` returns `none` on the empty current buffer and
exactly the buffer on a non-empty one, always leaves the empty buffer
behind (so a second call returns `none`), and the transcript handed to the
summarizer at teardown is the committed turns followed by exactly the
flushed partial turn (if any). -/
theorem flushPending_spec (b : TurnBuffer) (hb : b ≠ emptyTurn) :
    (flushPending emptyTurn).1 = none ∧
    (flushPending b).1 = some b ∧
    (flushPending b).2 = emptyTurn ∧
    (flushPending (flushPending b).2).1 = none ∧
    (∀ (k : Bool) (o : SummarizeOutcome) (i d : String) (s : LiveState),
      (stopSession k o i d s).2 =
        generateAndSaveSummary k o i d
          (s.transcription ++ (flushPending s.currentSpokenText).1.toList)) := by
  refine ⟨by simp [flushPending, emptyTurn], ?_, rfl, by simp [flushPending, emptyTurn],
    fun k o i d s => rfl⟩
  have hne : b.user ≠ "" ∨ b.model ≠ "" := by
    by_contra hcon
    push_neg at hcon
    exact hb (by cases b; cases hcon; simp [emptyTurn]; constructor <;> assumption)
  simp [flushPending, hne]

/-- C4 witness: a concrete non-empty buffer. -/
theorem flushPending_spec_witness :
    (⟨"hi", ""⟩ : TurnBuffer) ≠ emptyTurn ∧
    ((flushPending emptyTurn).1 = none ∧
     (flushPending ⟨"hi", ""⟩).1 = some ⟨"hi", ""⟩ ∧
     (flushPending ⟨"hi", ""⟩).2 = emptyTurn ∧
     (flushPending (flushPending ⟨"hi", ""⟩).2).1 = none ∧
     (∀ (k : Bool) (o : SummarizeOutcome) (i d : String) (s : LiveState),
       (stopSession k o i d s).2 =
         generateAndSaveSummary k o i d
           (s.transcription ++ (flushPending s.currentSpokenText).1.toList))) :=
  ⟨by decide, flushPending_spec ⟨"hi", ""⟩ (by decide)⟩

/-- C6: when a shared image is present and a session exists, running the
shared-image effect sends it exactly once and clears the single-slot value,
and running the effect again afterwards — whatever the session flag has
become in the meantime — sends nothing. -/
theorem sharedImage_consume_once (s : ShareSlotState) (img : MediaChunk)
    (h1 : s.sharedImage = some img) (h2 : s.sessionOpen = true) :
    (runSharedImageEffect s).2 = [img] ∧
    (runSharedImageEffect s).1.sharedImage = none ∧
    ∀ b : Bool,
      (runSharedImageEffect
        { (runSharedImageEffect s).1 with sessionOpen := b }).2 = [] := by
  obtain ⟨slot, open?⟩ := s
  cases h1
  cases h2
  refine ⟨rfl, rfl, fun b => rfl⟩

/-- C6 witness: a concrete slot holding an image while a session exists. -/
theorem sharedImage_consume_once_witness :
    (⟨some ⟨"imgdata", "image/png"⟩, true⟩ : ShareSlotState).sharedImage =
        some ⟨"imgdata", "image/png"⟩ ∧
    (⟨some ⟨"imgdata", "image/png"⟩, true⟩ : ShareSlotState).sessionOpen = true ∧
    ((runSharedImageEffect ⟨some ⟨"imgdata", "image/png"⟩, true⟩).2 =
        [⟨"imgdata", "image/png"⟩] ∧
     (runSharedImageEffect ⟨some ⟨"imgdata", "image/png"⟩, true⟩).1.sharedImage =
        none ∧
     ∀ b : Bool,
       (runSharedImageEffect
         { (runSharedImageEffect
             (⟨some ⟨"imgdata", "image/png"⟩, true⟩ : ShareSlotState)).1
           with sessionOpen := b }).2 = []) :=
  ⟨rfl, rfl,
    sharedImage_consume_once ⟨some ⟨"imgdata", "image/png"⟩, true⟩
      ⟨"imgdata", "image/png"⟩ rfl rfl⟩

/-- C7: when the summarization call fails on a non-empty transcript (with an
API key configured), a session record is still produced, with the fixed
fallback title and the raw serialized transcript as body. -/
theorem summary_failure_fallback (full : List TurnBuffer)
    (nowId nowDate : String) (h : full ≠ []) :
    generateAndSaveSummary true .failure nowId nowDate full =
      some ⟨nowId, "Session Log (Summary Failed)", transcriptText full,
            nowDate⟩ := by
  have hlen : ¬ (full.length = 0 ∨ (true : Bool) = false) := by
    simp [List.length_eq_zero, h]
  simp [generateAndSaveSummary, hlen, h]

/-- C7 witness: a concrete one-turn transcript with a failing summarizer. -/
theorem summary_failure_fallback_witness :
    ([⟨"what is 2+2", "it is 4"⟩] : List TurnBuffer) ≠ [] ∧
    generateAndSaveSummary true .failure "id0" "date0"
        [⟨"what is 2+2", "it is 4"⟩] =
      some ⟨"id0", "Session Log (Summary Failed)",
            transcriptText [⟨"what is 2+2", "it is 4"⟩], "date0"⟩ :=
  ⟨by decide, summary_failure_fallback [⟨"what is 2+2", "it is 4"⟩] "id0" "date0"
    (by decide)⟩

/-- C9: if the final transcript is empty or no API key is configured,
`generateAndSaveSummary` returns before constructing a record, and
`stopSession` on a session with nothing committed and an empty current
buffer (or without an API key) emits no record — the session-end callback
is never invoked. -/
theorem no_record_on_empty_or_no_key (k : Bool) (o : SummarizeOutcome)
    (i d : String) (full : List TurnBuffer) (s : LiveState)
    (h : full = [] ∨ k = false)
    (h2 : (s.transcription = [] ∧ s.currentSpokenText = emptyTurn) ∨
          k = false) :
    generateAndSaveSummary k o i d full = none ∧
    (stopSession k o i d s).2 = none := by
  constructor
  · rcases h with h | h
    · simp [generateAndSaveSummary, h]
    · simp [generateAndSaveSummary, h]
  · rcases h2 with ⟨ht, hc⟩ | h2
    · simp [stopSession, stopAllStreams, ht, hc, flushPending, emptyTurn,
        generateAndSaveSummary]
    · simp [stopSession, stopAllStreams, generateAndSaveSummary, h2]

/-- C9 witness: an idle component with no API key configured. -/
theorem no_record_on_empty_or_no_key_witness :
    (([] : List TurnBuffer) = [] ∨ (false : Bool) = false) ∧
    ((initLive.transcription = [] ∧ initLive.currentSpokenText = emptyTurn) ∨
      (false : Bool) = false) ∧
    (generateAndSaveSummary false .failure "i" "d" [] = none ∧
     (stopSession false .failure "i" "d" initLive).2 = none) :=
  ⟨Or.inl rfl, Or.inl ⟨rfl, rfl⟩,
    no_record_on_empty_or_no_key false .failure "i" "d" [] initLive
      (Or.inl rfl) (Or.inl ⟨rfl, rfl⟩)⟩

/-- C8: stopping is idempotent — a second `stopSession` on the state left by
a first one (whatever summarizer outcome, key presence or wall-clock values
either call sees) changes nothing and emits no record, and releasing the
already-released streams is a no-op. -/
theorem stopSession_idempotent (k k2 : Bool) (o o2 : SummarizeOutcome)
    (i d i2 d2 : String) (s : LiveState) :
    stopSession k2 o2 i2 d2 (stopSession k o i d s).1 =
      ((stopSession k o i d s).1, none) ∧
    stopAllStreams (stopAllStreams s) = stopAllStreams s := by
  constructor
  · simp [stopSession, stopAllStreams, flushPending, emptyTurn,
      generateAndSaveSummary]
  · rfl

/-- Folding a delta stream over the component state grows the current turn
buffer by the per-speaker concatenations and touches nothing else of the
transcript state. -/
theorem foldl_applyDelta_currentSpokenText (deltas : List DeltaEv) :
    ∀ s : LiveState,
      (deltas.foldl applyDelta s).currentSpokenText =
        ⟨s.currentSpokenText.user ++ userConcat deltas,
         s.currentSpokenText.model ++ modelConcat deltas⟩ ∧
      (deltas.foldl applyDelta s).transcription = s.transcription := by
  induction deltas with
  | nil =>
    intro s
    refine ⟨?_, rfl⟩
    simp [userConcat, modelConcat, String.append_empty]
  | cons d rest ih =>
    intro s
    cases d with
    | input t =>
      have h := ih (applyDelta s (.input t))
      simpa [applyDelta, onInputTranscription, userConcat, modelConcat,
        String.append_assoc] using h
    | output t =>
      have h := ih (applyDelta s (.output t))
      simpa [applyDelta, onOutputTranscription, userConcat, modelConcat,
        String.append_assoc] using h

/-- The commit appends the closure-captured snapshot whatever deltas have
accumulated in the store since the closure was created. -/
theorem onTurnComplete_commits_captured (captured : TurnBuffer)
    (s : LiveState) (deltas : List DeltaEv) :
    (onTurnComplete captured (deltas.foldl applyDelta s)).transcription =
      s.transcription ++ [captured] := by
  have h := foldl_applyDelta_currentSpokenText deltas s
  simp [onTurnComplete, h.2]

/-- C3 (code bug): evaluating the code at the failing input.  From the
initial state the Start render's captured `currentSpokenText` is the empty
turn; after the deltas "hel" (user) and "hi" (model) the current store
holds ⟨"hel", "hi"⟩, yet the `TurnComplete` commit of line 244 appends the
stale captured snapshot — the empty turn — and line 245 discards the
accumulated deltas, diverging from the specified per-speaker
concatenation. -/
theorem turnComplete_commits_stale_snapshot :
    ([DeltaEv.input "hel", DeltaEv.output "hi"].foldl applyDelta
        initLive).currentSpokenText = ⟨"hel", "hi"⟩ ∧
    (onTurnComplete emptyTurn
        ([DeltaEv.input "hel", DeltaEv.output "hi"].foldl applyDelta
          initLive)).transcription = [emptyTurn] ∧
    (onTurnComplete emptyTurn
        ([DeltaEv.input "hel", DeltaEv.output "hi"].foldl applyDelta
          initLive)).currentSpokenText = emptyTurn ∧
    ([emptyTurn] : List TurnBuffer) ≠ [⟨"hel", "hi"⟩] := by
  decide

/-- One start time is produced per scheduled chunk. -/
theorem runChunks_length (chunks : List (ℚ × ℚ)) :
    ∀ s : SchedState, ((runChunks s chunks).2).length = chunks.length := by
  induction chunks with
  | nil => intro s; rfl
  | cons c rest ih =>
    intro s
    simpa [runChunks] using ih (handleAudioChunk c.1 c.2 s).1

/-- Adjacent scheduled chunks never overlap: pairing each start time with
its chunk's duration, every start is at least its predecessor's start plus
the predecessor's duration. -/
theorem runChunks_chain_no_overlap (chunks : List (ℚ × ℚ)) :
    ∀ s : SchedState,
      List.Chain' (fun p q : ℚ × ℚ => p.1 + p.2 ≤ q.1)
        ((runChunks s chunks).2.zip (chunks.map Prod.fst)) := by
  induction chunks with
  | nil => intro s; simp [runChunks]
  | cons c rest ih =>
    intro s
    simp only [runChunks, List.map_cons, List.zip_cons_cons]
    refine List.Chain'.cons' (ih (handleAudioChunk c.1 c.2 s).1) ?_
    intro y hy
    cases rest with
    | nil => simp [runChunks] at hy
    | cons c2 r2 =>
      simp only [runChunks, List.map_cons, List.zip_cons_cons,
        List.head?_cons, Option.mem_def, Option.some.injEq] at hy
      subst hy
      simp only [handleAudioChunk]
      exact le_max_left _ _

/-- With non-negative durations the scheduled start times are
non-decreasing. -/
theorem runChunks_chain_mono (chunks : List (ℚ × ℚ)) :
    ∀ s : SchedState, (∀ c ∈ chunks, 0 ≤ c.1) →
      List.Chain' (fun a b : ℚ => a ≤ b) ((runChunks s chunks).2) := by
  induction chunks with
  | nil => intro s _; simp [runChunks]
  | cons c rest ih =>
    intro s hd
    simp only [runChunks]
    refine List.Chain'.cons'
      (ih (handleAudioChunk c.1 c.2 s).1
        (fun x hx => hd x (List.mem_cons_of_mem _ hx))) ?_
    intro y hy
    cases rest with
    | nil => simp [runChunks] at hy
    | cons c2 r2 =>
      simp only [runChunks, List.head?_cons, Option.mem_def,
        Option.some.injEq] at hy
      subst hy
      have h0 : (0 : ℚ) ≤ c.1 := hd c (List.mem_cons_self _ _)
      simp only [handleAudioChunk]
      calc max s.nextStartTime c.2
          ≤ max s.nextStartTime c.2 + c.1 := by linarith
        _ ≤ max (max s.nextStartTime c.2 + c.1) c2.2 := le_max_left _ _

/-- C2: each enqueued chunk is scheduled at `max(cursor, clockNow)` and the
cursor then advances to `start + duration`; consequently, for every
sequence of enqueues with non-negative durations and arbitrary arrival
clock times, one start time is produced per chunk, each chunk's start is at
least its predecessor's start plus the predecessor's duration (no overlap),
and the start times are non-decreasing. -/
theorem enqueue_gapless_no_overlap (s : SchedState) (dur clockNow : ℚ)
    (chunks : List (ℚ × ℚ)) (hd : ∀ c ∈ chunks, 0 ≤ c.1) :
    ((handleAudioChunk dur clockNow s).2 = max s.nextStartTime clockNow ∧
     (handleAudioChunk dur clockNow s).1.nextStartTime =
       (handleAudioChunk dur clockNow s).2 + dur) ∧
    ((runChunks s chunks).2).length = chunks.length ∧
    List.Chain' (fun p q : ℚ × ℚ => p.1 + p.2 ≤ q.1)
      ((runChunks s chunks).2.zip (chunks.map Prod.fst)) ∧
    List.Chain' (fun a b : ℚ => a ≤ b) ((runChunks s chunks).2) :=
  ⟨⟨rfl, rfl⟩, runChunks_length chunks s, runChunks_chain_no_overlap chunks s,
    runChunks_chain_mono chunks s hd⟩

/-- C2 witness: the spec's scenario — durations 1, 1/2, 3/10 arriving at
clock times 0, 1/5, 5 — enqueued from a fresh scheduler. -/
theorem enqueue_gapless_no_overlap_witness :
    (∀ c ∈ ([(1, 0), (1/2, 1/5), (3/10, 5)] : List (ℚ × ℚ)), 0 ≤ c.1) ∧
    (((handleAudioChunk 1 0 initSched).2 = max initSched.nextStartTime 0 ∧
      (handleAudioChunk 1 0 initSched).1.nextStartTime =
        (handleAudioChunk 1 0 initSched).2 + 1) ∧
     ((runChunks initSched [(1, 0), (1/2, 1/5), (3/10, 5)]).2).length =
       ([(1, 0), (1/2, 1/5), (3/10, 5)] : List (ℚ × ℚ)).length ∧
     List.Chain' (fun p q : ℚ × ℚ => p.1 + p.2 ≤ q.1)
       ((runChunks initSched [(1, 0), (1/2, 1/5), (3/10, 5)]).2.zip
         (([(1, 0), (1/2, 1/5), (3/10, 5)] : List (ℚ × ℚ)).map Prod.fst)) ∧
     List.Chain' (fun a b : ℚ => a ≤ b)
       ((runChunks initSched [(1, 0), (1/2, 1/5), (3/10, 5)]).2)) :=
  ⟨by norm_num,
    enqueue_gapless_no_overlap initSched 1 0 [(1, 0), (1/2, 1/5), (3/10, 5)]
      (by norm_num)⟩

/-- Acquiring the camera never touches the screen flag. -/
theorem startMediaStream_camera_keeps_screen (ok hv : Bool) (s : LiveState) :
    (startMediaStream .camera ok hv s).isScreenOn = s.isScreenOn := by
  cases ok <;> cases hv <;> rfl

/-- Acquiring the screen never touches the camera flag. -/
theorem startMediaStream_screen_keeps_camera (ok hv : Bool) (s : LiveState) :
    (startMediaStream .screen ok hv s).isCameraOn = s.isCameraOn := by
  cases ok <;> cases hv <;> rfl

/-- The microphone toggle never touches the camera or screen flags. -/
theorem toggleMicrophone_keeps_visual (ok : Bool) (s : LiveState) :
    (toggleMicrophone ok s).isCameraOn = s.isCameraOn ∧
    (toggleMicrophone ok s).isScreenOn = s.isScreenOn := by
  unfold toggleMicrophone
  split_ifs <;> exact ⟨rfl, rfl⟩

/-- Every single operation preserves the camera/screen exclusion
invariant. -/
theorem applyOp_mutex (s : LiveState) (op : LiveOp)
    (h : (s.isCameraOn && s.isScreenOn) = false) :
    ((applyOp s op).isCameraOn && (applyOp s op).isScreenOn) = false := by
  cases op with
  | opened => exact h
  | inputDelta t => exact h
  | outputDelta t => exact h
  | turnComplete captured => exact h
  | audioChunk dur clockNow => exact h
  | interrupted => exact h
  | ended hh => exact h
  | stop k o i d => rfl
  | toggleMic ok =>
    have hv := toggleMicrophone_keeps_visual ok s
    simpa [applyOp, hv.1, hv.2] using h
  | toggleCam ok hv =>
    simp only [applyOp, toggleCamera]
    by_cases ha : s.isSessionActive = false
    · simpa [ha] using h
    · simp only [ha, if_false]
      by_cases hc : s.isCameraOn
      · simp [hc, stopAllStreams]
      · simp only [hc, if_false]
        by_cases hscr : s.isScreenOn
        · simp [hscr, startMediaStream_camera_keeps_screen]
        · simp [hscr, startMediaStream_camera_keeps_screen]
  | toggleScr ok hv =>
    simp only [applyOp, toggleScreenShare]
    by_cases ha : s.isSessionActive = false
    · simpa [ha] using h
    · simp only [ha, if_false]
      by_cases hscr : s.isScreenOn
      · simp [hscr, stopAllStreams]
      · simp only [hscr, if_false]
        by_cases hc : s.isCameraOn
        · simp [hc, startMediaStream_screen_keeps_camera]
        · simp [hc, startMediaStream_screen_keeps_camera]

/-- The exclusion invariant propagates along any operation sequence. -/
theorem foldl_applyOp_mutex (ops : List LiveOp) :
    ∀ s : LiveState, (s.isCameraOn && s.isScreenOn) = false →
      ((ops.foldl applyOp s).isCameraOn &&
       (ops.foldl applyOp s).isScreenOn) = false := by
  induction ops with
  | nil => exact fun s h => h
  | cons op rest ih => exact fun s h => ih (applyOp s op) (applyOp_mutex s op h)

/-- C5: in every state reachable from the initial component state by any
sequence of operations, the camera flag and the screen-share flag are never
both true; moreover acquiring a visual stream factors through releasing the
previously held stream and frame interval first, so the acquired state
never depends on what was held before. -/
theorem camera_screen_mutually_exclusive (ops : List LiveOp) :
    ((ops.foldl applyOp initLive).isCameraOn &&
     (ops.foldl applyOp initLive).isScreenOn) = false ∧
    ∀ (t : StreamType) (ok hv : Bool) (s : LiveState),
      startMediaStream t ok hv s = startMediaStream t ok hv (stopAllStreams s) :=
  ⟨foldl_applyOp_mutex ops initLive rfl,
    fun t ok hv s => by cases t <;> cases ok <;> cases hv <;> rfl⟩
